import Mathlib

/-!
Shallow embedding of the PulseWisdom ephemeris service.

Sources embedded here:
* `app/models/astronomical.py` — pydantic value objects (`CelestialBody`,
  `HouseSystem`, `GeoPosition`, `DateTime` with its `validate_day` validator,
  `BodyPosition`, `House`, `Aspect`, `ChartAngles`, `BirthChart`, `DateRange`).
* `app/services/kerykeion_service.py` — `KerykeionService` (`_get_or_create_instance`,
  `_get_house_rulers`, `_calculate_house_size`, `_convert_to_gmt`,
  `calculate_birth_chart`, `calculate_transits`).
* `app/api/endpoints.py` — the route handlers for the declared-but-unimplemented
  endpoints (`/aspects`, `/transits`, `/significant-events`, `/fixed-stars`,
  `/lunar-phases`).

External collaborators (the kerykeion library's `AstrologicalSubject`,
`NatalAspects` / `SynastryAspects`, and the pytz timezone database) are
out of scope per the specification and are modelled as explicit function
parameters: a subject constructor `SubjectArgs → Subject`, an aspect finder
producing raw aspect records, and a timezone database
`String → Option (NaiveDT → NaiveDT)` mapping a zone name to its
local-to-UTC conversion.  Python floats are modelled as rationals.
-/

namespace PulseWisdom

/-- `CelestialBody` enumeration from `models/astronomical.py` (13 members). -/
inductive CelestialBody where
  | SUN | MOON | MERCURY | VENUS | MARS | JUPITER | SATURN
  | URANUS | NEPTUNE | PLUTO | NORTH_NODE | SOUTH_NODE | CHIRON
deriving DecidableEq, Repr

/-- The `.value` string of each `CelestialBody` member. -/
def CelestialBody.value : CelestialBody → String
  | .SUN => "SUN"
  | .MOON => "MOON"
  | .MERCURY => "MERCURY"
  | .VENUS => "VENUS"
  | .MARS => "MARS"
  | .JUPITER => "JUPITER"
  | .SATURN => "SATURN"
  | .URANUS => "URANUS"
  | .NEPTUNE => "NEPTUNE"
  | .PLUTO => "PLUTO"
  | .NORTH_NODE => "NORTH_NODE"
  | .SOUTH_NODE => "SOUTH_NODE"
  | .CHIRON => "CHIRON"

/-- Iteration order of `for body in CelestialBody` (definition order). -/
def celestialBodyMembers : List CelestialBody :=
  [.SUN, .MOON, .MERCURY, .VENUS, .MARS, .JUPITER, .SATURN,
   .URANUS, .NEPTUNE, .PLUTO, .NORTH_NODE, .SOUTH_NODE, .CHIRON]

/-- `CelestialBody(s)` for a value string `s`: succeeds exactly on the 13
member values (Python raises `ValueError` otherwise; the services first
check membership in `[b.value for b in CelestialBody]`, which this models). -/
def CelestialBody.ofValue (s : String) : Option CelestialBody :=
  if s = "SUN" then some .SUN
  else if s = "MOON" then some .MOON
  else if s = "MERCURY" then some .MERCURY
  else if s = "VENUS" then some .VENUS
  else if s = "MARS" then some .MARS
  else if s = "JUPITER" then some .JUPITER
  else if s = "SATURN" then some .SATURN
  else if s = "URANUS" then some .URANUS
  else if s = "NEPTUNE" then some .NEPTUNE
  else if s = "PLUTO" then some .PLUTO
  else if s = "NORTH_NODE" then some .NORTH_NODE
  else if s = "SOUTH_NODE" then some .SOUTH_NODE
  else if s = "CHIRON" then some .CHIRON
  else none

/-- Python's `str.upper()` on the ASCII body names (character-wise
upper-casing). -/
def pyUpper (s : String) : String :=
  ⟨s.data.map Char.toUpper⟩

/-- `HouseSystem` enumeration from `models/astronomical.py` (10 members). -/
inductive HouseSystem where
  | PLACIDUS | KOCH | PORPHYRIUS | REGIOMONTANUS | CAMPANUS
  | EQUAL | WHOLE_SIGN | MERIDIAN | MORINUS | TOPOCENTRIC
deriving DecidableEq, Repr

/-- `GeoPosition` (latitude, longitude, optional altitude); floats as `ℚ`. -/
structure GeoPosition where
  latitude : ℚ
  longitude : ℚ
  altitude : Option ℚ := none
deriving DecidableEq, Repr

/-- `DateTime` value object (validated fields; named timezone string). -/
structure DateTime where
  year : ℕ
  month : ℕ
  day : ℕ
  hour : ℕ
  minute : ℕ
  second : ℕ
  timezone : String := "UTC"
deriving DecidableEq, Repr

/-- Python's naive `datetime.datetime` (no timezone attached). -/
structure NaiveDT where
  year : ℕ
  month : ℕ
  day : ℕ
  hour : ℕ
  minute : ℕ
  second : ℕ
deriving DecidableEq, Repr

/-- The leap-year test from `DateTime.validate_day`:
`year % 4 == 0 and (year % 100 != 0 or year % 400 == 0)`. -/
def isLeapYear (year : ℕ) : Bool :=
  year % 4 == 0 && (year % 100 != 0 || year % 400 == 0)

/-- The `@validator('day')` body of `DateTime.validate_day`. -/
def validate_day (year month day : ℕ) : Except String ℕ :=
  if (month = 4 ∨ month = 6 ∨ month = 9 ∨ month = 11) ∧ day > 30 then
    .error "Month has only 30 days"
  else if month = 2 then
    if isLeapYear year ∧ day > 29 then
      .error "February has only 29 days in leap years"
    else if ¬ isLeapYear year ∧ day > 28 then
      .error "February has only 28 days in non-leap years"
    else .ok day
  else .ok day

/-- Pydantic construction of a `DateTime`: per-field `Field` range
constraints in declaration order, then the `validate_day` validator. -/
def DateTime.mk? (year month day hour minute second : ℕ)
    (timezone : String) : Except String DateTime :=
  if ¬ (1900 ≤ year ∧ year ≤ 2100) then .error "year out of range"
  else if ¬ (1 ≤ month ∧ month ≤ 12) then .error "month out of range"
  else if ¬ (1 ≤ day ∧ day ≤ 31) then .error "day out of range"
  else
    match validate_day year month day with
    | .error e => .error e
    | .ok d =>
      if ¬ hour ≤ 23 then .error "hour out of range"
      else if ¬ minute ≤ 59 then .error "minute out of range"
      else if ¬ second ≤ 59 then .error "second out of range"
      else .ok ⟨year, month, d, hour, minute, second, timezone⟩

/-- `BodyPosition` value object. -/
structure BodyPosition where
  id : CelestialBody
  longitude : ℚ
  latitude : ℚ
  distance : ℚ
  speed : ℚ
  is_retrograde : Bool
deriving DecidableEq, Repr

/-- `House` value object. -/
structure House where
  number : ℕ
  cusp : ℚ
  next_cusp : ℚ
  longitude : ℚ
  latitude : ℚ
  size : ℚ
  ruler_ids : List CelestialBody
deriving DecidableEq, Repr

/-- `Aspect` value object (`exact` / `applying` are Python booleans). -/
structure Aspect where
  body1 : CelestialBody
  body2 : CelestialBody
  type : String
  orb : ℚ
  exact : Bool
  applying : Bool
deriving DecidableEq, Repr

/-- `ChartAngles` value object. -/
structure ChartAngles where
  ascendant : ℚ
  midheaven : ℚ
  descendant : ℚ
  imum_coeli : ℚ
deriving DecidableEq, Repr

/-- `BirthChart` aggregate. -/
structure BirthChart where
  datetime : DateTime
  location : GeoPosition
  bodies : List BodyPosition
  houses : List House
  angles : ChartAngles
  aspects : List Aspect
deriving DecidableEq, Repr

/-- `DateRange` (Python field names `start` / `end`; `end` is a Lean
keyword, rendered here as `endDT`). -/
structure DateRange where
  start : DateTime
  endDT : DateTime
deriving DecidableEq, Repr

/-- `AstrologicalEvent` response model. -/
structure AstrologicalEvent where
  datetime : DateTime
  type : String
  description : String
  bodies : List CelestialBody
deriving DecidableEq, Repr

/-- `FixedStar` response model. -/
structure FixedStar where
  name : String
  longitude : ℚ
  latitude : ℚ
  magnitude : ℚ
deriving DecidableEq, Repr

/-- `LunarPhase` response model. -/
structure LunarPhase where
  datetime : DateTime
  phase : String
  illumination : ℚ
deriving DecidableEq, Repr

/-! ## The external kerykeion library boundary -/

/-- A kerykeion point (`KerykeionPointModel`): the service reads only
`abs_pos` and `retrograde`. -/
structure Point where
  abs_pos : ℚ
  retrograde : Bool
deriving DecidableEq, Repr

/-- A raw aspect record from kerykeion's aspect finders
(`p1_name`, `p2_name`, `aspect`, signed `orbit`). -/
structure RawAspect where
  p1_name : String
  p2_name : String
  aspect : String
  orbit : ℚ
deriving DecidableEq, Repr

/-- What the service reads off a computed `AstrologicalSubject`:
the four chart angles, a per-body point (`getattr(instance,
body.value.lower(), None)`, `none` when absent or not a
`KerykeionPointModel`), the twelve house cusp points
(`first_house` … `twelfth_house`, `none` when not a
`KerykeionPointModel`), and the `NatalAspects(instance).relevant_aspects`
list. -/
structure Subject where
  ascendant : Point
  medium_coeli : Point
  descendant : Point
  imum_coeli : Point
  planets : CelestialBody → Option Point
  houses : Fin 12 → Option Point
  relevantAspects : List RawAspect

/-- The keyword arguments the service passes to the `AstrologicalSubject`
constructor (note: no seconds field and no house system). -/
structure SubjectArgs where
  name : String
  year : ℕ
  month : ℕ
  day : ℕ
  hour : ℕ
  minute : ℕ
  lat : ℚ
  lng : ℚ
  tz_str : String
deriving DecidableEq, Repr

/-- The service's `_instances` dictionary (process-lifetime cache). -/
abbrev InstanceCache := List (String × Subject)

/-- A concrete subject with no named points, usable as the image of a
deterministic external constructor in concrete evaluations. -/
def trivialSubject : Subject :=
  { ascendant := ⟨0, false⟩, medium_coeli := ⟨0, false⟩,
    descendant := ⟨0, false⟩, imum_coeli := ⟨0, false⟩,
    planets := fun _ => none, houses := fun _ => none,
    relevantAspects := [] }

/-! ## KerykeionService -/

/-- The f-string cache key of `_get_or_create_instance`:
`f"{year}-{month}-{day}-{hour}-{latitude}-{longitude}"`. -/
def cacheKey (dt : DateTime) (location : GeoPosition) : String :=
  toString dt.year ++ "-" ++ toString dt.month ++ "-" ++ toString dt.day
    ++ "-" ++ toString dt.hour ++ "-" ++ toString location.latitude
    ++ "-" ++ toString location.longitude

/-- `_get_or_create_instance`, with the external constructor `mk` passed in
and the cache threaded explicitly.  Returns the subject, the updated cache,
and whether the external constructor was invoked by this call. -/
def _get_or_create_instance (mk : SubjectArgs → Subject)
    (cache : InstanceCache) (datetime : DateTime) (location : GeoPosition) :
    Subject × InstanceCache × Bool :=
  let key := cacheKey datetime location
  match cache.lookup key with
  | some inst => (inst, cache, false)
  | none =>
    let inst := mk
      { name := "User", year := datetime.year, month := datetime.month,
        day := datetime.day, hour := datetime.hour, minute := datetime.minute,
        lat := location.latitude, lng := location.longitude,
        tz_str := datetime.timezone }
    (inst, (key, inst) :: cache, true)

/-- `_get_house_rulers`: static traditional rulership table. -/
def _get_house_rulers (house_number : ℕ) : List CelestialBody :=
  if house_number = 1 then [.MARS]
  else if house_number = 2 then [.VENUS]
  else if house_number = 3 then [.MERCURY]
  else if house_number = 4 then [.MOON]
  else if house_number = 5 then [.SUN]
  else if house_number = 6 then [.MERCURY]
  else if house_number = 7 then [.VENUS]
  else if house_number = 8 then [.PLUTO]
  else if house_number = 9 then [.JUPITER]
  else if house_number = 10 then [.SATURN]
  else if house_number = 11 then [.URANUS]
  else if house_number = 12 then [.NEPTUNE]
  else []

/-- `_calculate_house_size`: if `cusp2 < cusp1` then `cusp2 += 360`;
return `cusp2 - cusp1`. -/
def _calculate_house_size (cusp1 cusp2 : ℚ) : ℚ :=
  if cusp2 < cusp1 then cusp2 + 360 - cusp1 else cusp2 - cusp1

/-- A timezone database (pytz): maps a zone name to the local-to-UTC
conversion (`tz.localize(dt).astimezone(pytz.UTC)`); `none` for an
unknown zone name (`pytz.timezone` raises `UnknownTimeZoneError`). -/
abbrev TzDb := String → Option (NaiveDT → NaiveDT)

/-- `_convert_to_gmt`: resolve the zone and convert, re-raising on failure. -/
def _convert_to_gmt (tzdb : TzDb) (dt : NaiveDT) (timezone : String) :
    Except String NaiveDT :=
  match tzdb timezone with
  | some conv => .ok (conv dt)
  | none => .error ("Error converting timezone: unknown timezone " ++ timezone)

/-- The naive `datetime(...)` built from a `DateTime`'s fields at the top
of `calculate_birth_chart` (`second or 0` is the identity on the required
int field). -/
def naiveOf (dt : DateTime) : NaiveDT :=
  ⟨dt.year, dt.month, dt.day, dt.hour, dt.minute, dt.second⟩

/-- The field bundle of the GMT `DateTime` built from the converted
instant (timezone hard-coded to `"GMT"`): this is the value the pydantic
construction `DateTime(year=gmt_dt.year, …, timezone="GMT")` yields when
its validators succeed.  `calculate_birth_chart` performs that validated
construction via `DateTime.mk?`; this bundle is used in statements to
name the successful result. -/
def gmtDateTimeOf (g : NaiveDT) : DateTime :=
  ⟨g.year, g.month, g.day, g.hour, g.minute, g.second, "GMT"⟩

/-- The body-positions loop of `calculate_birth_chart`: for each member in
enumeration order, look the point up on the subject; skip absent points;
latitude / distance / speed are zeroed. -/
def buildBodies (inst : Subject) : List BodyPosition :=
  celestialBodyMembers.filterMap fun body =>
    match inst.planets body with
    | some p =>
      some { id := body, longitude := p.abs_pos, latitude := 0,
             distance := 0, speed := 0, is_retrograde := p.retrograde }
    | none => none

/-- The houses loop of `calculate_birth_chart`: slots `first_house` …
`twelfth_house` in order, 1-based numbering, next cusp from the following
slot (house 12 wraps to house 1); a slot whose point (or whose successor
point) is missing is skipped. -/
def buildHouses (inst : Subject) : List House :=
  (List.finRange 12).filterMap fun i =>
    match inst.houses i, inst.houses (i + 1) with
    | some p, some q =>
      some { number := i.val + 1, cusp := p.abs_pos, next_cusp := q.abs_pos,
             longitude := p.abs_pos, latitude := 0,
             size := _calculate_house_size p.abs_pos q.abs_pos,
             ruler_ids := _get_house_rulers (i.val + 1) }
    | _, _ => none

/-- The natal-aspects loop of `calculate_birth_chart`: discard aspects
whose upper-cased body names are outside the enumeration; orb is the
absolute value of the signed `orbit`; `applying` from the sign before
normalization; `exact` when the normalized orb is ≤ 1 degree. -/
def buildNatalAspects (raws : List RawAspect) : List Aspect :=
  raws.filterMap fun a =>
    match CelestialBody.ofValue (pyUpper a.p1_name),
          CelestialBody.ofValue (pyUpper a.p2_name) with
    | some b1, some b2 =>
      some { body1 := b1, body2 := b2, type := a.aspect,
             orb := |a.orbit|, exact := decide (|a.orbit| ≤ (1 : ℚ)),
             applying := decide (a.orbit < (0 : ℚ)) }
    | _, _ => none

/-- The response assembly of `calculate_birth_chart` from the computed
subject and the GMT-normalized datetime. -/
def buildChart (inst : Subject) (gmt_datetime : DateTime)
    (location : GeoPosition) : BirthChart :=
  { datetime := gmt_datetime, location := location,
    bodies := buildBodies inst, houses := buildHouses inst,
    angles := { ascendant := inst.ascendant.abs_pos,
                midheaven := inst.medium_coeli.abs_pos,
                descendant := inst.descendant.abs_pos,
                imum_coeli := inst.imum_coeli.abs_pos },
    aspects := buildNatalAspects inst.relevantAspects }

/-- `KerykeionService.calculate_birth_chart`: convert the input instant to
GMT (fatal on unknown zone), re-wrap the converted instant as a pydantic
`DateTime(year=gmt_dt.year, …, timezone="GMT")` — which re-runs the field
validators and raises when e.g. the converted year leaves [1900, 2100] —
then obtain or reuse the subject and assemble the chart.  The
`house_system` parameter is part of the signature. -/
def calculate_birth_chart (tzdb : TzDb) (mk : SubjectArgs → Subject)
    (cache : InstanceCache) (birth_datetime : DateTime)
    (location : GeoPosition) (house_system : HouseSystem) :
    Except String (BirthChart × InstanceCache) :=
  match _convert_to_gmt tzdb (naiveOf birth_datetime) birth_datetime.timezone with
  | .error e => .error e
  | .ok gmt_dt =>
    match DateTime.mk? gmt_dt.year gmt_dt.month gmt_dt.day gmt_dt.hour
        gmt_dt.minute gmt_dt.second "GMT" with
    | .error e => .error e
    | .ok gmt_datetime =>
      let r := _get_or_create_instance mk cache gmt_datetime location
      .ok (buildChart r.1 gmt_datetime location, r.2.1)

/-- An `active_aspects` entry passed to `SynastryAspects`. -/
structure ActiveAspect where
  name : String
  orb : ℚ
deriving DecidableEq, Repr

/-- The transit-aspects loop of `calculate_transits`: discard invalid body
names; discard raw aspects whose absolute orbit exceeds the tolerance;
normalize the orb; `exact` when the normalized orb is ≤ 0.1 degree. -/
def buildTransitAspects (orb : ℚ) (raws : List RawAspect) : List Aspect :=
  raws.filterMap fun a =>
    match CelestialBody.ofValue (pyUpper a.p1_name),
          CelestialBody.ofValue (pyUpper a.p2_name) with
    | some b1, some b2 =>
      if |a.orbit| > orb then none
      else
        some { body1 := b1, body2 := b2, type := a.aspect,
               orb := |a.orbit|, exact := decide (|a.orbit| ≤ mkRat 1 10),
               applying := decide (a.orbit < (0 : ℚ)) }
    | _, _ => none

/-- `KerykeionService.calculate_transits`: rebuild subjects for the natal
instant and for the start of the date range (same location), run the
external synastry aspect finder with the five major aspect types at the
given orb tolerance, and post-process the raw aspects. -/
def calculate_transits (mk : SubjectArgs → Subject)
    (synastry : Subject → Subject → List ActiveAspect → List RawAspect)
    (natal_chart : BirthChart) (date_range : DateRange) (orb : ℚ := 1) :
    List Aspect :=
  let natal_instance := mk
    { name := "Natal", year := natal_chart.datetime.year,
      month := natal_chart.datetime.month, day := natal_chart.datetime.day,
      hour := natal_chart.datetime.hour, minute := natal_chart.datetime.minute,
      lat := natal_chart.location.latitude, lng := natal_chart.location.longitude,
      tz_str := natal_chart.datetime.timezone }
  let transit_instance := mk
    { name := "Transit", year := date_range.start.year,
      month := date_range.start.month, day := date_range.start.day,
      hour := date_range.start.hour, minute := date_range.start.minute,
      lat := natal_chart.location.latitude, lng := natal_chart.location.longitude,
      tz_str := date_range.start.timezone }
  let active_aspects : List ActiveAspect :=
    [⟨"conjunction", orb⟩, ⟨"opposition", orb⟩, ⟨"trine", orb⟩,
     ⟨"sextile", orb⟩, ⟨"square", orb⟩]
  buildTransitAspects orb (synastry transit_instance natal_instance active_aspects)

/-! ## Route handlers of `app/api/endpoints.py` -/

/-- A Python exception as raised by the endpoint handlers. -/
inductive PyExc where
  | notImplementedError (msg : String)
  | httpException (status_code : ℕ) (detail : String)
deriving DecidableEq, Repr

/-- `str(e)` for the exceptions above. -/
def PyExc.message : PyExc → String
  | .notImplementedError m => m
  | .httpException _ d => d

/-- The `try: ... except Exception as e: raise HTTPException(status_code=500,
detail=str(e))` wrapper shared by the handlers in `endpoints.py`. -/
def tryExcept500 {α : Type} (body : Except PyExc α) : Except PyExc α :=
  match body with
  | .ok a => .ok a
  | .error e => .error (.httpException 500 e.message)

/-- The HTTP status FastAPI sends for a handler outcome: 200 on a normal
return, the carried status for a raised `HTTPException`, 500 for any other
uncaught exception. -/
def responseStatus {α : Type} : Except PyExc α → ℕ
  | .ok _ => 200
  | .error (.httpException s _) => s
  | .error _ => 500

/-- `POST /aspects` handler of `endpoints.py` (the non-delegating variant):
raises `NotImplementedError` inside the catch-all wrapper. -/
def calculate_aspects_route (bodies : List CelestialBody) :
    Except PyExc (List Aspect) :=
  tryExcept500 (.error (.notImplementedError "Aspect calculation not yet implemented"))

/-- `POST /transits` handler of `endpoints.py` (the non-delegating variant). -/
def calculate_transits_route (natal_chart : BirthChart)
    (date_range : DateRange) : Except PyExc (List Aspect) :=
  tryExcept500 (.error (.notImplementedError "Transit calculation not yet implemented"))

/-- `POST /significant-events` handler of `endpoints.py`. -/
def calculate_significant_events_route (date_range : DateRange) :
    Except PyExc (List AstrologicalEvent) :=
  tryExcept500 (.error (.notImplementedError "Significant events calculation not yet implemented"))

/-- `POST /fixed-stars` handler of `endpoints.py`. -/
def calculate_fixed_stars_route (datetime : DateTime) :
    Except PyExc (List FixedStar) :=
  tryExcept500 (.error (.notImplementedError "Fixed star calculation not yet implemented"))

/-- `POST /lunar-phases` handler of `endpoints.py`. -/
def calculate_lunar_phases_route (date_range : DateRange) :
    Except PyExc (List LunarPhase) :=
  tryExcept500 (.error (.notImplementedError "Lunar phase calculation not yet implemented"))

/-! ## Concrete instantiations of the external collaborators, used for
evaluating the service on closed inputs -/

/-- A one-zone timezone database: resolves only `"UTC"`, with the identity
local-to-UTC conversion. -/
def tzdbUTC : TzDb := fun s => if s = "UTC" then some (fun d => d) else none

/-- A concrete input instant in the resolvable zone. -/
def dtExample : DateTime := ⟨2000, 1, 1, 12, 0, 0, "UTC"⟩

/-- A concrete input instant naming a zone unknown to `tzdbUTC`. -/
def dtUnknownZone : DateTime := ⟨2000, 1, 1, 12, 0, 0, "Mars/Olympus"⟩

/-- A concrete location. -/
def locExample : GeoPosition := ⟨40, 70, none⟩

/-- A deterministic external constructor returning the empty subject. -/
def mkTrivial : SubjectArgs → Subject := fun _ => trivialSubject

/-- The chart the service assembles from `trivialSubject` at the example
input. -/
def chartExample : BirthChart :=
  buildChart trivialSubject (gmtDateTimeOf (naiveOf dtExample)) locExample

/-- The cache state after one miss at the example input. -/
def cacheExample : InstanceCache :=
  [(cacheKey (gmtDateTimeOf (naiveOf dtExample)) locExample, trivialSubject)]

/-- Days in a Gregorian month, for the calendar borrow in `subFiveHours`. -/
def daysInMonth (year month : ℕ) : ℕ :=
  if month = 2 then (if isLeapYear year then 29 else 28)
  else if month = 4 ∨ month = 6 ∨ month = 9 ∨ month = 11 then 30
  else 31

/-- The local-to-UTC conversion of the fixed-offset zone `Etc/GMT-5`
(UTC+5): subtract five hours, borrowing through the day, month and year
boundaries. -/
def subFiveHours (d : NaiveDT) : NaiveDT :=
  if 5 ≤ d.hour then ⟨d.year, d.month, d.day, d.hour - 5, d.minute, d.second⟩
  else if 1 < d.day then
    ⟨d.year, d.month, d.day - 1, d.hour + 19, d.minute, d.second⟩
  else if 1 < d.month then
    ⟨d.year, d.month - 1, daysInMonth d.year (d.month - 1), d.hour + 19,
      d.minute, d.second⟩
  else ⟨d.year - 1, 12, 31, d.hour + 19, d.minute, d.second⟩

/-- A two-zone timezone database: `"UTC"` (identity) and `"Etc/GMT-5"`
(UTC+5, so local-to-UTC subtracts five hours). -/
def tzdbShift5 : TzDb := fun s =>
  if s = "UTC" then some (fun d => d)
  else if s = "Etc/GMT-5" then some subFiveHours
  else none

/-- A valid request at the lower year bound in the UTC+5 zone: its UTC
conversion lands in 1899. -/
def dtYearBoundary : DateTime := ⟨1900, 1, 1, 0, 0, 0, "Etc/GMT-5"⟩

/-- A subject carrying all twelve house cusp points (30° apart). -/
def fullHouseSubject : Subject :=
  { ascendant := ⟨100, false⟩, medium_coeli := ⟨10, false⟩,
    descendant := ⟨280, false⟩, imum_coeli := ⟨190, false⟩,
    planets := fun _ => none,
    houses := fun i => some ⟨30 * (i.val : ℚ), false⟩,
    relevantAspects := [] }

/-- A deterministic external constructor returning `fullHouseSubject`. -/
def mkFull : SubjectArgs → Subject := fun _ => fullHouseSubject

/-- The chart assembled from `fullHouseSubject` at the example input. -/
def chartFull : BirthChart :=
  buildChart fullHouseSubject (gmtDateTimeOf (naiveOf dtExample)) locExample

/-- The cache state after one miss at the example input with `mkFull`. -/
def cacheFull : InstanceCache :=
  [(cacheKey (gmtDateTimeOf (naiveOf dtExample)) locExample, fullHouseSubject)]

/-! ## Theorems -/

/-- C1 (code divergence): every declared-but-unimplemented route handler in
`endpoints.py` catches its own `NotImplementedError` and re-raises
`HTTPException(status_code=500, ...)`, so for every syntactically valid
request the response status is 500 — not the 501 the specification (and the
repository's own test suite) requires. -/
theorem unimplemented_routes_respond_500 (bodies : List CelestialBody)
    (natal : BirthChart) (dr1 dr2 dr3 : DateRange) (dt : DateTime) :
    responseStatus (calculate_significant_events_route dr1) = 500 ∧
    responseStatus (calculate_fixed_stars_route dt) = 500 ∧
    responseStatus (calculate_lunar_phases_route dr2) = 500 ∧
    responseStatus (calculate_aspects_route bodies) = 500 ∧
    responseStatus (calculate_transits_route natal dr3) = 500 :=
  ⟨rfl, rfl, rfl, rfl, rfl⟩

/-- `validate_day` rejects day 30 in February for every year. -/
lemma validate_day_feb30 (y : ℕ) : ∃ e, validate_day y 2 30 = .error e := by
  by_cases h : isLeapYear y
  · exact ⟨"February has only 29 days in leap years", by simp [validate_day, h]⟩
  · exact ⟨"February has only 28 days in non-leap years", by simp [validate_day, h]⟩

/-- When all `Field` range constraints pass, `DateTime.mk?` propagates a
`validate_day` error. -/
lemma mk?_error_of_validate_day (y mo d h mi s : ℕ) (tz e : String)
    (h1 : 1900 ≤ y) (h2 : y ≤ 2100) (h3 : 1 ≤ mo) (h4 : mo ≤ 12)
    (h5 : 1 ≤ d) (h6 : d ≤ 31)
    (hv : validate_day y mo d = .error e) :
    DateTime.mk? y mo d h mi s tz = .error e := by
  simp [DateTime.mk?, h1, h2, h3, h4, h5, h6, hv]

/-- C7: `DateTime` validation raises on day 30 of February for every year in
[1900, 2100]; it accepts 2000-02-29 (leap year by the divisible-by-400 rule)
and rejects 1900-02-29 (divisible by 100, not by 400, hence non-leap). -/
theorem february_day_validation :
    (∀ y : ℕ, 1900 ≤ y → y ≤ 2100 →
      ∃ e, DateTime.mk? y 2 30 0 0 0 "UTC" = .error e) ∧
    (∃ d, DateTime.mk? 2000 2 29 0 0 0 "UTC" = .ok d) ∧
    (∃ e, DateTime.mk? 1900 2 29 0 0 0 "UTC" = .error e) := by
  refine ⟨fun y hy1 hy2 => ?_, ⟨⟨2000, 2, 29, 0, 0, 0, "UTC"⟩, rfl⟩,
    ⟨"February has only 28 days in non-leap years", rfl⟩⟩
  obtain ⟨e, he⟩ := validate_day_feb30 y
  exact ⟨e, mk?_error_of_validate_day y 2 30 0 0 0 "UTC" e hy1 hy2
    (by norm_num) (by norm_num) (by norm_num) (by norm_num) he⟩

/-- Witness for C7 at the concrete year 1954. -/
theorem february_day_validation_witness :
    ∃ e, DateTime.mk? 1954 2 30 0 0 0 "UTC" = .error e :=
  february_day_validation.1 1954 (by decide) (by decide)

/-- C2: two `(DateTime, GeoPosition)` pairs agreeing on year, month, day,
hour, latitude and longitude — whatever their minute, second or timezone
fields — produce the same cache key in `_get_or_create_instance`; starting
from a cache without that key, the first call invokes the external
constructor, and the second call is a cache hit returning the very subject
the first call stored, with the cache unchanged. -/
theorem subject_cache_granularity (mk : SubjectArgs → Subject)
    (cache : InstanceCache) (dt1 dt2 : DateTime) (loc1 loc2 : GeoPosition)
    (hy : dt1.year = dt2.year) (hmo : dt1.month = dt2.month)
    (hd : dt1.day = dt2.day) (hh : dt1.hour = dt2.hour)
    (hlat : loc1.latitude = loc2.latitude)
    (hlng : loc1.longitude = loc2.longitude)
    (hmiss : cache.lookup (cacheKey dt1 loc1) = none) :
    cacheKey dt2 loc2 = cacheKey dt1 loc1 ∧
    (_get_or_create_instance mk cache dt1 loc1).2.2 = true ∧
    (_get_or_create_instance mk
        ((_get_or_create_instance mk cache dt1 loc1).2.1) dt2 loc2).2.2 = false ∧
    (_get_or_create_instance mk
        ((_get_or_create_instance mk cache dt1 loc1).2.1) dt2 loc2).1 =
      (_get_or_create_instance mk cache dt1 loc1).1 ∧
    (_get_or_create_instance mk
        ((_get_or_create_instance mk cache dt1 loc1).2.1) dt2 loc2).2.1 =
      (_get_or_create_instance mk cache dt1 loc1).2.1 := by
  have hkey : cacheKey dt2 loc2 = cacheKey dt1 loc1 := by
    unfold cacheKey
    rw [hy, hmo, hd, hh, hlat, hlng]
  refine ⟨hkey, ?_, ?_, ?_, ?_⟩ <;>
    simp [_get_or_create_instance, hmiss, hkey, List.lookup]

/-- Witness for C2: same calendar hour in two different minutes/timezones. -/
theorem subject_cache_granularity_witness :
    cacheKey ⟨1991, 9, 29, 11, 59, 30, "GMT"⟩ ⟨19, 72, none⟩ =
      cacheKey ⟨1991, 9, 29, 11, 44, 0, "Asia/Kolkata"⟩ ⟨19, 72, none⟩ ∧
    (_get_or_create_instance (fun _ => trivialSubject) []
        ⟨1991, 9, 29, 11, 44, 0, "Asia/Kolkata"⟩ ⟨19, 72, none⟩).2.2 = true ∧
    (_get_or_create_instance (fun _ => trivialSubject)
        ((_get_or_create_instance (fun _ => trivialSubject) []
            ⟨1991, 9, 29, 11, 44, 0, "Asia/Kolkata"⟩ ⟨19, 72, none⟩).2.1)
        ⟨1991, 9, 29, 11, 59, 30, "GMT"⟩ ⟨19, 72, none⟩).2.2 = false ∧
    (_get_or_create_instance (fun _ => trivialSubject)
        ((_get_or_create_instance (fun _ => trivialSubject) []
            ⟨1991, 9, 29, 11, 44, 0, "Asia/Kolkata"⟩ ⟨19, 72, none⟩).2.1)
        ⟨1991, 9, 29, 11, 59, 30, "GMT"⟩ ⟨19, 72, none⟩).1 =
      (_get_or_create_instance (fun _ => trivialSubject) []
          ⟨1991, 9, 29, 11, 44, 0, "Asia/Kolkata"⟩ ⟨19, 72, none⟩).1 ∧
    (_get_or_create_instance (fun _ => trivialSubject)
        ((_get_or_create_instance (fun _ => trivialSubject) []
            ⟨1991, 9, 29, 11, 44, 0, "Asia/Kolkata"⟩ ⟨19, 72, none⟩).2.1)
        ⟨1991, 9, 29, 11, 59, 30, "GMT"⟩ ⟨19, 72, none⟩).2.1 =
      (_get_or_create_instance (fun _ => trivialSubject) []
          ⟨1991, 9, 29, 11, 44, 0, "Asia/Kolkata"⟩ ⟨19, 72, none⟩).2.1 :=
  subject_cache_granularity (fun _ => trivialSubject) []
    ⟨1991, 9, 29, 11, 44, 0, "Asia/Kolkata"⟩ ⟨1991, 9, 29, 11, 59, 30, "GMT"⟩
    ⟨19, 72, none⟩ ⟨19, 72, none⟩ rfl rfl rfl rfl rfl rfl rfl

/-- C5: every natal aspect record assembled by `calculate_birth_chart` comes
from a raw library aspect whose two (upper-cased) body names are members of
the 13-member `CelestialBody` enumeration; its reported orb is the absolute
value of the raw signed orb (hence non-negative), `applying` holds exactly
when the raw orb is negative, and `exact` holds exactly when the normalized
orb is at most 1 degree. -/
theorem natal_aspects_normalized (raws : List RawAspect) (a : Aspect)
    (ha : a ∈ buildNatalAspects raws) :
    ∃ r ∈ raws,
      CelestialBody.ofValue (pyUpper r.p1_name) = some a.body1 ∧
      CelestialBody.ofValue (pyUpper r.p2_name) = some a.body2 ∧
      a.orb = |r.orbit| ∧ 0 ≤ a.orb ∧
      (a.applying = true ↔ r.orbit < 0) ∧
      (a.exact = true ↔ |r.orbit| ≤ 1) := by
  rcases List.mem_filterMap.mp ha with ⟨r, hr, hstep⟩
  refine ⟨r, hr, ?_⟩
  rcases h1 : CelestialBody.ofValue (pyUpper r.p1_name) with _ | b1 <;>
    rcases h2 : CelestialBody.ofValue (pyUpper r.p2_name) with _ | b2 <;>
      rw [h1, h2] at hstep <;> simp only [Option.some.injEq, reduceCtorEq] at hstep
  subst hstep
  simp [h1, h2, abs_nonneg]

/-- Witness for C5: one raw aspect with signed orb −1. -/
theorem natal_aspects_normalized_witness :
    ∃ r ∈ [RawAspect.mk "Sun" "Moon" "trine" (-1)],
      CelestialBody.ofValue (pyUpper r.p1_name) =
        some (Aspect.mk .SUN .MOON "trine" 1 true true).body1 ∧
      CelestialBody.ofValue (pyUpper r.p2_name) =
        some (Aspect.mk .SUN .MOON "trine" 1 true true).body2 ∧
      (Aspect.mk .SUN .MOON "trine" 1 true true).orb = |r.orbit| ∧
      0 ≤ (Aspect.mk .SUN .MOON "trine" 1 true true).orb ∧
      ((Aspect.mk .SUN .MOON "trine" 1 true true).applying = true ↔
        r.orbit < 0) ∧
      ((Aspect.mk .SUN .MOON "trine" 1 true true).exact = true ↔
        |r.orbit| ≤ 1) :=
  natal_aspects_normalized [RawAspect.mk "Sun" "Moon" "trine" (-1)]
    (Aspect.mk .SUN .MOON "trine" 1 true true) (by decide)

/-- C6: every aspect returned by `calculate_transits` traces to a raw
synastry aspect with valid enumerated body names; the reported orb is
non-negative, never exceeds the caller-supplied tolerance, and `exact`
holds exactly when the normalized orb is at most 0.1 degree. -/
theorem transit_aspects_filtered (mk : SubjectArgs → Subject)
    (synastry : Subject → Subject → List ActiveAspect → List RawAspect)
    (natal_chart : BirthChart) (date_range : DateRange) (orb : ℚ) (a : Aspect)
    (ha : a ∈ calculate_transits mk synastry natal_chart date_range orb) :
    0 ≤ a.orb ∧ a.orb ≤ orb ∧ (a.exact = true ↔ a.orb ≤ 1/10) ∧
    ∃ r : RawAspect, CelestialBody.ofValue (pyUpper r.p1_name) = some a.body1 ∧
      CelestialBody.ofValue (pyUpper r.p2_name) = some a.body2 ∧
      a.orb = |r.orbit| := by
  unfold calculate_transits at ha
  generalize (synastry _ _ _) = raws at ha
  rcases List.mem_filterMap.mp ha with ⟨r, hr, hstep⟩
  rcases h1 : CelestialBody.ofValue (pyUpper r.p1_name) with _ | b1 <;>
    rcases h2 : CelestialBody.ofValue (pyUpper r.p2_name) with _ | b2 <;>
      rw [h1, h2] at hstep <;>
        simp only [reduceCtorEq] at hstep
  by_cases horb : |r.orbit| > orb
  · rw [if_pos horb] at hstep
    exact absurd hstep (by simp)
  · rw [if_neg horb] at hstep
    rw [Option.some.injEq] at hstep
    subst hstep
    refine ⟨abs_nonneg _, not_lt.mp horb, ?_, r, h1, h2, rfl⟩
    show decide (|r.orbit| ≤ mkRat 1 10) = true ↔ |r.orbit| ≤ 1/10
    rw [show (mkRat 1 10 : ℚ) = 1/10 by rw [Rat.mkRat_eq_div]; norm_num]
    exact decide_eq_true_iff

/-- Witness for C6: tolerance 2, one raw synastry aspect with orb −1. -/
theorem transit_aspects_filtered_witness :
    0 ≤ (Aspect.mk .SUN .MOON "square" 1 false true).orb ∧
    (Aspect.mk .SUN .MOON "square" 1 false true).orb ≤ 2 ∧
    ((Aspect.mk .SUN .MOON "square" 1 false true).exact = true ↔
      (Aspect.mk .SUN .MOON "square" 1 false true).orb ≤ 1/10) ∧
    ∃ r : RawAspect, CelestialBody.ofValue (pyUpper r.p1_name) =
        some (Aspect.mk .SUN .MOON "square" 1 false true).body1 ∧
      CelestialBody.ofValue (pyUpper r.p2_name) =
        some (Aspect.mk .SUN .MOON "square" 1 false true).body2 ∧
      (Aspect.mk .SUN .MOON "square" 1 false true).orb = |r.orbit| :=
  transit_aspects_filtered (fun _ => trivialSubject)
    (fun _ _ _ => [RawAspect.mk "Sun" "Moon" "square" (-1)])
    (BirthChart.mk ⟨2000, 1, 1, 12, 0, 0, "GMT"⟩ ⟨40, 70, none⟩ [] []
      ⟨0, 0, 0, 0⟩ [])
    (DateRange.mk ⟨2024, 4, 2, 12, 0, 0, "GMT"⟩ ⟨2024, 4, 2, 12, 0, 0, "GMT"⟩)
    2 (Aspect.mk .SUN .MOON "square" 1 false true) (by decide)

/-- `_calculate_house_size` decomposed into the angular difference plus the
wraparound correction. -/
lemma house_size_split (x y : ℚ) :
    _calculate_house_size x y = (y - x) + (if y < x then (360 : ℚ) else 0) := by
  unfold _calculate_house_size
  split_ifs <;> ring

/-- The cyclic successor permutes the sum of twelve cusps. -/
lemma sum_cusp_shift (c : ℕ → ℚ) :
    (∑ i ∈ Finset.range 12, c ((i + 1) % 12)) = ∑ i ∈ Finset.range 12, c i := by
  simp [Finset.sum_range_succ]
  ring

/-- C4: for cusps in [0, 360), a house size is non-negative and < 360; and
for twelve cusps in ascending circular order (exactly one wrap, at index
`j`, house 12 wrapping to house 1), the twelve sizes sum to exactly 360. -/
theorem house_size_bounds_and_sum :
    (∀ cusp1 cusp2 : ℚ, 0 ≤ cusp1 → cusp1 < 360 → 0 ≤ cusp2 → cusp2 < 360 →
      0 ≤ _calculate_house_size cusp1 cusp2 ∧
        _calculate_house_size cusp1 cusp2 < 360) ∧
    (∀ c : ℕ → ℚ, (∀ i, i < 12 → 0 ≤ c i ∧ c i < 360) →
      ∀ j, j < 12 → c ((j + 1) % 12) < c j →
      (∀ i, i < 12 → i ≠ j → c i < c ((i + 1) % 12)) →
      (∑ i ∈ Finset.range 12, _calculate_house_size (c i) (c ((i + 1) % 12)))
        = 360) := by
  constructor
  · intro cusp1 cusp2 h1 h2 h3 h4
    unfold _calculate_house_size
    split_ifs with h <;> constructor <;> linarith
  · intro c _ j hj hdesc hasc
    have hsplit : ∀ i ∈ Finset.range 12,
        _calculate_house_size (c i) (c ((i + 1) % 12)) =
          (c ((i + 1) % 12) - c i) + (if c ((i + 1) % 12) < c i then (360 : ℚ) else 0) :=
      fun i _ => house_size_split _ _
    rw [Finset.sum_congr rfl hsplit, Finset.sum_add_distrib,
      Finset.sum_sub_distrib, sum_cusp_shift, sub_self, zero_add,
      Finset.sum_eq_single_of_mem j (Finset.mem_range.mpr hj)
        (fun b hb hbj =>
          if_neg (not_lt.mpr (le_of_lt (hasc b (Finset.mem_range.mp hb) hbj)))),
      if_pos hdesc]

/-- Witness for C4: the boundary pair (350, 10) and the equally spaced
cusps 0, 30, …, 330 (wrap at house 12). -/
theorem house_size_bounds_and_sum_witness :
    (0 ≤ _calculate_house_size 350 10 ∧ _calculate_house_size 350 10 < 360) ∧
    (∑ i ∈ Finset.range 12,
        _calculate_house_size (30 * (i : ℚ)) (30 * (((i + 1) % 12 : ℕ) : ℚ)))
      = 360 :=
  ⟨house_size_bounds_and_sum.1 350 10 (by norm_num) (by norm_num)
      (by norm_num) (by norm_num),
    house_size_bounds_and_sum.2 (fun i => 30 * (i : ℚ))
      (fun i hi => by
        have h12 : (i : ℚ) < 12 := by exact_mod_cast hi
        exact ⟨by positivity, by show 30 * (i : ℚ) < 360; linarith⟩)
      11 (by norm_num) (by norm_num)
      (fun i hi hne => by
        interval_cases i <;> first | exact absurd rfl hne | norm_num)⟩

/-- `validate_day` never alters the day it accepts. -/
lemma validate_day_ok (y mo d d' : ℕ) (h : validate_day y mo d = .ok d') :
    d' = d := by
  unfold validate_day at h
  split_ifs at h <;> simp_all

/-- A `DateTime` built by a successful `DateTime.mk?` carries exactly the
given field values. -/
lemma mk?_ok_fields (y mo d h mi s : ℕ) (tz : String) (g : DateTime)
    (hg : DateTime.mk? y mo d h mi s tz = .ok g) :
    g = ⟨y, mo, d, h, mi, s, tz⟩ := by
  unfold DateTime.mk? at hg
  cases hv : validate_day y mo d with
  | error e =>
    simp only [hv] at hg
    split_ifs at hg
  | ok d' =>
    simp only [hv] at hg
    split_ifs at hg
    cases hg
    have hd : d' = d := validate_day_ok y mo d d' hv
    subst hd
    rfl

/-- Evaluation of `calculate_birth_chart` when the zone resolves and the
converted instant passes the pydantic re-validation. -/
lemma calculate_birth_chart_eq_ok (tzdb : TzDb) (mk : SubjectArgs → Subject)
    (cache : InstanceCache) (dt : DateTime) (loc : GeoPosition)
    (hs : HouseSystem) (conv : NaiveDT → NaiveDT) (gdt : DateTime)
    (hconv : tzdb dt.timezone = some conv)
    (hmk : DateTime.mk? (conv (naiveOf dt)).year (conv (naiveOf dt)).month
      (conv (naiveOf dt)).day (conv (naiveOf dt)).hour
      (conv (naiveOf dt)).minute (conv (naiveOf dt)).second "GMT" = .ok gdt) :
    calculate_birth_chart tzdb mk cache dt loc hs =
      .ok (buildChart (_get_or_create_instance mk cache gdt loc).1 gdt loc,
           (_get_or_create_instance mk cache gdt loc).2.1) := by
  unfold calculate_birth_chart _convert_to_gmt
  simp only [hconv, hmk]

/-- Evaluation of `calculate_birth_chart` on an unknown zone name. -/
lemma calculate_birth_chart_eq_error_tz (tzdb : TzDb)
    (mk : SubjectArgs → Subject) (cache : InstanceCache) (dt : DateTime)
    (loc : GeoPosition) (hs : HouseSystem)
    (hnone : tzdb dt.timezone = none) :
    calculate_birth_chart tzdb mk cache dt loc hs =
      .error ("Error converting timezone: unknown timezone " ++ dt.timezone) := by
  unfold calculate_birth_chart _convert_to_gmt
  simp only [hnone]

/-- Evaluation of `calculate_birth_chart` when the zone resolves but the
converted instant fails the pydantic re-validation. -/
lemma calculate_birth_chart_eq_error_validation (tzdb : TzDb)
    (mk : SubjectArgs → Subject) (cache : InstanceCache) (dt : DateTime)
    (loc : GeoPosition) (hs : HouseSystem) (conv : NaiveDT → NaiveDT)
    (e : String) (hconv : tzdb dt.timezone = some conv)
    (hmk : DateTime.mk? (conv (naiveOf dt)).year (conv (naiveOf dt)).month
      (conv (naiveOf dt)).day (conv (naiveOf dt)).hour
      (conv (naiveOf dt)).minute (conv (naiveOf dt)).second "GMT" = .error e) :
    calculate_birth_chart tzdb mk cache dt loc hs = .error e := by
  unfold calculate_birth_chart _convert_to_gmt
  simp only [hconv, hmk]

/-- C3 counterexample: a valid request at 1900-01-01 00:00 in the
resolvable zone `Etc/GMT-5` converts to 1899-12-31 19:00 UTC; re-wrapping
the converted instant as a pydantic `DateTime` fails the `year ≥ 1900`
constraint, so `calculate_birth_chart` raises and no `BirthChart` carrying
a UTC-normalized datetime is returned. -/
theorem gmt_normalization_counterexample :
    (∃ conv, tzdbShift5 dtYearBoundary.timezone = some conv) ∧
    calculate_birth_chart tzdbShift5 mkTrivial [] dtYearBoundary locExample
      .PLACIDUS = .error "year out of range" ∧
    ∀ chart cache',
      calculate_birth_chart tzdbShift5 mkTrivial [] dtYearBoundary locExample
        .PLACIDUS ≠ .ok (chart, cache') := by
  refine ⟨⟨subFiveHours, rfl⟩, rfl, ?_⟩
  intro chart cache' h
  rw [show calculate_birth_chart tzdbShift5 mkTrivial [] dtYearBoundary
      locExample .PLACIDUS = .error "year out of range" from rfl] at h
  exact Except.noConfusion h

/-- C3 (amended): when the named timezone resolves AND the UTC-converted
instant passes the pydantic `DateTime` re-validation, the call succeeds
and the returned chart carries the UTC-converted instant with its timezone
field set to `"GMT"` (not the original local time); when the zone name is
unknown, or the converted instant fails re-validation (e.g. the converted
year leaves [1900, 2100]), the call surfaces an error instead of returning
a chart. -/
theorem gmt_normalization (tzdb : TzDb) (mk : SubjectArgs → Subject)
    (cache : InstanceCache) (dt : DateTime) (loc : GeoPosition)
    (hs : HouseSystem) :
    (∀ (conv : NaiveDT → NaiveDT) (gdt : DateTime),
      tzdb dt.timezone = some conv →
      DateTime.mk? (conv (naiveOf dt)).year (conv (naiveOf dt)).month
        (conv (naiveOf dt)).day (conv (naiveOf dt)).hour
        (conv (naiveOf dt)).minute (conv (naiveOf dt)).second "GMT"
        = .ok gdt →
      ∃ chart cache',
        calculate_birth_chart tzdb mk cache dt loc hs = .ok (chart, cache') ∧
        chart.datetime = gmtDateTimeOf (conv (naiveOf dt)) ∧
        chart.datetime.timezone = "GMT") ∧
    (tzdb dt.timezone = none →
      ∃ e, calculate_birth_chart tzdb mk cache dt loc hs = .error e) ∧
    (∀ (conv : NaiveDT → NaiveDT) (e : String),
      tzdb dt.timezone = some conv →
      DateTime.mk? (conv (naiveOf dt)).year (conv (naiveOf dt)).month
        (conv (naiveOf dt)).day (conv (naiveOf dt)).hour
        (conv (naiveOf dt)).minute (conv (naiveOf dt)).second "GMT"
        = .error e →
      calculate_birth_chart tzdb mk cache dt loc hs = .error e) := by
  refine ⟨?_, ?_, ?_⟩
  · intro conv gdt hconv hmk
    have hgdt := mk?_ok_fields _ _ _ _ _ _ _ _ hmk
    refine ⟨_, _,
      calculate_birth_chart_eq_ok tzdb mk cache dt loc hs conv gdt hconv hmk,
      ?_, ?_⟩
    · show gdt = gmtDateTimeOf (conv (naiveOf dt))
      rw [hgdt]
      rfl
    · show gdt.timezone = "GMT"
      rw [hgdt]
  · intro hnone
    exact ⟨_, calculate_birth_chart_eq_error_tz tzdb mk cache dt loc hs hnone⟩
  · intro conv e hconv hmk
    exact calculate_birth_chart_eq_error_validation tzdb mk cache dt loc hs
      conv e hconv hmk

/-- Witness for C3: the zone `"UTC"` with an in-range instant succeeds
with a GMT-stamped datetime; the unknown zone errors; the year-boundary
instant in `Etc/GMT-5` errors on re-validation. -/
theorem gmt_normalization_witness :
    (∃ chart cache',
      calculate_birth_chart tzdbUTC mkTrivial [] dtExample locExample
        .PLACIDUS = .ok (chart, cache') ∧
      chart.datetime = gmtDateTimeOf ((fun d => d) (naiveOf dtExample)) ∧
      chart.datetime.timezone = "GMT") ∧
    (∃ e, calculate_birth_chart tzdbUTC mkTrivial [] dtUnknownZone locExample
      .PLACIDUS = .error e) ∧
    calculate_birth_chart tzdbShift5 mkTrivial [] dtYearBoundary locExample
      .PLACIDUS = .error "year out of range" :=
  ⟨(gmt_normalization tzdbUTC mkTrivial [] dtExample locExample
      .PLACIDUS).1 (fun d => d) ⟨2000, 1, 1, 12, 0, 0, "GMT"⟩ rfl rfl,
   (gmt_normalization tzdbUTC mkTrivial [] dtUnknownZone locExample
      .PLACIDUS).2.1 rfl,
   (gmt_normalization tzdbShift5 mkTrivial [] dtYearBoundary locExample
      .PLACIDUS).2.2 subFiveHours "year out of range" rfl rfl⟩

/-- C9: the `house_system` argument accepted by the service signature is
never forwarded to the external subject constructor, so the result of
`calculate_birth_chart` is identical for any two requested house systems. -/
theorem house_system_not_forwarded (tzdb : TzDb) (mk : SubjectArgs → Subject)
    (cache : InstanceCache) (dt : DateTime) (loc : GeoPosition)
    (hs1 hs2 : HouseSystem) :
    calculate_birth_chart tzdb mk cache dt loc hs1 =
      calculate_birth_chart tzdb mk cache dt loc hs2 := rfl

/-- On a cache hit, `_get_or_create_instance` returns the cached subject,
leaves the cache unchanged, and does not invoke the constructor. -/
lemma get_or_create_hit (mk : SubjectArgs → Subject) (cache : InstanceCache)
    (dt : DateTime) (loc : GeoPosition) (inst : Subject)
    (h : cache.lookup (cacheKey dt loc) = some inst) :
    _get_or_create_instance mk cache dt loc = (inst, cache, false) := by
  simp [_get_or_create_instance, h]

/-- After any `_get_or_create_instance` call, the updated cache maps the
key to exactly the subject the call returned. -/
lemma get_or_create_lookup (mk : SubjectArgs → Subject)
    (cache : InstanceCache) (dt : DateTime) (loc : GeoPosition) :
    ((_get_or_create_instance mk cache dt loc).2.1).lookup (cacheKey dt loc) =
      some (_get_or_create_instance mk cache dt loc).1 := by
  unfold _get_or_create_instance
  cases h : cache.lookup (cacheKey dt loc) with
  | some inst => simp [h]
  | none => simp [h, List.lookup]

/-- C8: with the external library modelled as deterministic functions, two
consecutive `calculate_birth_chart` calls on the same (datetime, location,
house-system) input — the second starting from the cache state the first
left behind — return charts with identical angles, identical body-position
lists and identical house lists. -/
theorem birth_chart_deterministic (tzdb : TzDb) (mk : SubjectArgs → Subject)
    (cache : InstanceCache) (dt : DateTime) (loc : GeoPosition)
    (hs : HouseSystem) (c1 : BirthChart) (s1 : InstanceCache)
    (c2 : BirthChart) (s2 : InstanceCache)
    (h1 : calculate_birth_chart tzdb mk cache dt loc hs = .ok (c1, s1))
    (h2 : calculate_birth_chart tzdb mk s1 dt loc hs = .ok (c2, s2)) :
    c1.angles = c2.angles ∧ c1.bodies = c2.bodies ∧ c1.houses = c2.houses := by
  cases htz : tzdb dt.timezone with
  | none =>
    rw [calculate_birth_chart_eq_error_tz tzdb mk cache dt loc hs htz] at h1
    exact absurd h1 (by simp)
  | some conv =>
    cases hmk : DateTime.mk? (conv (naiveOf dt)).year (conv (naiveOf dt)).month
        (conv (naiveOf dt)).day (conv (naiveOf dt)).hour
        (conv (naiveOf dt)).minute (conv (naiveOf dt)).second "GMT" with
    | error e =>
      rw [calculate_birth_chart_eq_error_validation tzdb mk cache dt loc hs
        conv e htz hmk] at h1
      exact absurd h1 (by simp)
    | ok gdt =>
      rw [calculate_birth_chart_eq_ok tzdb mk cache dt loc hs conv gdt htz hmk]
        at h1
      rw [calculate_birth_chart_eq_ok tzdb mk s1 dt loc hs conv gdt htz hmk]
        at h2
      simp only [Except.ok.injEq, Prod.mk.injEq] at h1 h2
      obtain ⟨hc1, hs1'⟩ := h1
      obtain ⟨hc2, hs2'⟩ := h2
      subst hs1'
      rw [get_or_create_hit mk _ _ _ _
        (get_or_create_lookup mk cache gdt loc)] at hc2
      subst hc1
      subst hc2
      exact ⟨rfl, rfl, rfl⟩

/-- Witness for C8: two consecutive calls at the example input, the first
from the empty cache, the second from the cache the first produced. -/
theorem birth_chart_deterministic_witness :
    chartExample.angles = chartExample.angles ∧
    chartExample.bodies = chartExample.bodies ∧
    chartExample.houses = chartExample.houses :=
  birth_chart_deterministic tzdbUTC mkTrivial [] dtExample locExample
    .PLACIDUS chartExample cacheExample chartExample cacheExample rfl rfl

/-- The houses list is strictly increasing in its `number` field. -/
lemma buildHouses_pairwise (inst : Subject) :
    (buildHouses inst).Pairwise (fun a b => a.number < b.number) := by
  unfold buildHouses
  rw [List.pairwise_filterMap]
  refine List.Pairwise.imp ?_ (List.pairwise_lt_finRange 12)
  intro i j hij b hb b' hb'
  rw [Option.mem_def] at hb hb'
  rcases hp : inst.houses i with _ | p <;>
    rcases hq : inst.houses (i + 1) with _ | q <;>
      rw [hp, hq] at hb <;>
        simp only [Option.some.injEq, reduceCtorEq] at hb
  rcases hp' : inst.houses j with _ | p' <;>
    rcases hq' : inst.houses (j + 1) with _ | q' <;>
      rw [hp', hq'] at hb' <;>
        simp only [Option.some.injEq, reduceCtorEq] at hb'
  subst hb
  subst hb'
  exact Nat.succ_lt_succ hij

/-- Membership characterization of the houses list: a house comes from a
slot whose own point and successor point are both present, and carries the
1-based slot number. -/
lemma buildHouses_mem (inst : Subject) (hse : House) :
    hse ∈ buildHouses inst ↔
      ∃ i : Fin 12, ∃ p q : Point,
        inst.houses i = some p ∧ inst.houses (i + 1) = some q ∧
        hse = { number := i.val + 1, cusp := p.abs_pos, next_cusp := q.abs_pos,
                longitude := p.abs_pos, latitude := 0,
                size := _calculate_house_size p.abs_pos q.abs_pos,
                ruler_ids := _get_house_rulers (i.val + 1) } := by
  unfold buildHouses
  rw [List.mem_filterMap]
  constructor
  · rintro ⟨i, hmem, hstep⟩
    rcases hp : inst.houses i with _ | p <;>
      rcases hq : inst.houses (i + 1) with _ | q <;>
        rw [hp, hq] at hstep <;>
          simp only [Option.some.injEq, reduceCtorEq] at hstep
    exact ⟨i, p, q, hp, hq, hstep.symm⟩
  · rintro ⟨i, p, q, hp, hq, rfl⟩
    refine ⟨i, List.mem_finRange i, ?_⟩
    rw [hp, hq]

/-- C10: in every chart returned by `calculate_birth_chart`, the houses
list has strictly increasing `number` fields, each house's number is the
1-based index of the subject slot it was extracted from (its cusp being
that slot's position), and a number `i + 1` appears in the list exactly
when slot `i` and its successor slot are present — a skipped slot leaves a
gap instead of renumbering. -/
theorem houses_numbered_by_slot (tzdb : TzDb) (mk : SubjectArgs → Subject)
    (cache : InstanceCache) (dt : DateTime) (loc : GeoPosition)
    (hs : HouseSystem) (chart : BirthChart) (cache' : InstanceCache)
    (h : calculate_birth_chart tzdb mk cache dt loc hs = .ok (chart, cache')) :
    chart.houses.Pairwise (fun a b => a.number < b.number) ∧
    ∃ inst : Subject,
      (∀ hse ∈ chart.houses, ∃ i : Fin 12, hse.number = i.val + 1 ∧
        ∃ p : Point, inst.houses i = some p ∧ hse.cusp = p.abs_pos) ∧
      (∀ i : Fin 12,
        ((inst.houses i).isSome ∧ (inst.houses (i + 1)).isSome) ↔
          ∃ hse ∈ chart.houses, hse.number = i.val + 1) := by
  cases htz : tzdb dt.timezone with
  | none =>
    rw [calculate_birth_chart_eq_error_tz tzdb mk cache dt loc hs htz] at h
    exact absurd h (by simp)
  | some conv =>
    cases hmk : DateTime.mk? (conv (naiveOf dt)).year (conv (naiveOf dt)).month
        (conv (naiveOf dt)).day (conv (naiveOf dt)).hour
        (conv (naiveOf dt)).minute (conv (naiveOf dt)).second "GMT" with
    | error e =>
      rw [calculate_birth_chart_eq_error_validation tzdb mk cache dt loc hs
        conv e htz hmk] at h
      exact absurd h (by simp)
    | ok gdt =>
    rw [calculate_birth_chart_eq_ok tzdb mk cache dt loc hs conv gdt htz hmk]
      at h
    simp only [Except.ok.injEq, Prod.mk.injEq] at h
    obtain ⟨hc, -⟩ := h
    set inst := (_get_or_create_instance mk cache gdt loc).1 with hinst
    subst hc
    refine ⟨buildHouses_pairwise inst, inst, ?_, ?_⟩
    · intro hse hmem
      rcases (buildHouses_mem inst hse).mp hmem with ⟨i, p, q, hp, hq, rfl⟩
      exact ⟨i, rfl, p, hp, rfl⟩
    · intro i
      constructor
      · rintro ⟨hpS, hqS⟩
        obtain ⟨p, hp⟩ := Option.isSome_iff_exists.mp hpS
        obtain ⟨q, hq⟩ := Option.isSome_iff_exists.mp hqS
        exact ⟨_, (buildHouses_mem inst _).mpr ⟨i, p, q, hp, hq, rfl⟩, rfl⟩
      · rintro ⟨hse, hmem, hnum⟩
        rcases (buildHouses_mem inst hse).mp hmem with ⟨i', p, q, hp, hq, rfl⟩
        have hii : i' = i := Fin.ext (by simpa using hnum)
        subst hii
        exact ⟨by simp [hp], by simp [hq]⟩

/-- Witness for C10: a subject with all twelve slots present yields houses
numbered 1 through 12. -/
theorem houses_numbered_by_slot_witness :
    chartFull.houses.Pairwise (fun a b => a.number < b.number) ∧
    ∃ inst : Subject,
      (∀ hse ∈ chartFull.houses, ∃ i : Fin 12, hse.number = i.val + 1 ∧
        ∃ p : Point, inst.houses i = some p ∧ hse.cusp = p.abs_pos) ∧
      (∀ i : Fin 12,
        ((inst.houses i).isSome ∧ (inst.houses (i + 1)).isSome) ↔
          ∃ hse ∈ chartFull.houses, hse.number = i.val + 1) :=
  houses_numbered_by_slot tzdbUTC mkFull [] dtExample locExample .PLACIDUS
    chartFull cacheFull rfl

end PulseWisdom
